import Mathlib

/-!
Shallow embedding of `src/app/main.py`: a FastAPI gateway with two request
handlers, `get_github_user` and `get_weather`.  JSON payloads are modelled by
an inductive `Json` type, HTTP responses by `HttpResponse` (whose `body` is
`none` when the bytes are not valid JSON, so that `r.json()` raising is
observable), network outcomes by `NetOutcome`, and a handler run by `HResult`
(`ok` / `httpError status detail` for an `HTTPException` / `crash` for an
exception that escapes the handler).  The weather handler additionally
returns the list of outbound calls it issued, in order.
-/

/-- A JSON value, numbers modelled as rationals. -/
inductive Json where
  | null
  | bool (b : Bool)
  | num (q : Rat)
  | str (s : String)
  | arr (elems : List Json)
  | obj (fields : List (String × Json))

/-- Python truthiness of a decoded JSON value (`bool(v)`): `None`, `False`,
`0`, `""`, `[]` and `{}` are falsy, everything else truthy. -/
def jTruthy : Json → Bool
  | .null => false
  | .bool b => b
  | .num q => q != 0
  | .str s => !s.isEmpty
  | .arr xs => !xs.isEmpty
  | .obj fs => !fs.isEmpty

/-- ASCII lowercasing of a string (Python `str.lower` / httpx header
normalisation restricted to the ASCII range). -/
def toLowerStr (s : String) : String := String.mk (s.toList.map Char.toLower)

/-- `dict.get(k)` on a decoded JSON object: `none` models Python `None`,
which results both from an absent key and from a JSON `null` value. -/
def dictGet (fields : List (String × Json)) (k : String) : Option Json :=
  match fields.lookup k with
  | some .null => none
  | some v => some v
  | none => none

/-- Case-insensitive header lookup, as done by the httpx `Headers` class. -/
def headerGet (hs : List (String × String)) (k : String) : Option String :=
  (hs.find? (fun p => toLowerStr p.1 == toLowerStr k)).map (fun p => p.2)

/-- httpx `Response.is_error`: a 4xx or 5xx status code. -/
def isError (s : Nat) : Bool := decide (400 ≤ s ∧ s ≤ 599)

/-- Does `p` start the character list `s`? -/
def startsWithL : List Char → List Char → Bool
  | [], _ => true
  | _ :: _, [] => false
  | p :: ps, c :: cs => p == c && startsWithL ps cs

/-- Does `pat` occur contiguously somewhere in `s`? -/
def subListAt (pat : List Char) : List Char → Bool
  | [] => startsWithL pat []
  | c :: cs => startsWithL pat (c :: cs) || subListAt pat cs

/-- Python's `pat in s` substring test on strings. -/
def strContains (s pat : String) : Bool := subListAt pat.toList s.toList

/-- Numeric value of an ASCII digit character. -/
def digitVal (c : Char) : Nat := c.toNat - 48

/-- Read a run of decimal digits into an accumulator; `none` on the first
non-digit character. -/
def digitsVal : List Char → Nat → Option Nat
  | [], acc => some acc
  | c :: cs, acc => if c.isDigit then digitsVal cs (10 * acc + digitVal c) else none

/-- Models Python `int()` applied to a string: an optional sign followed by
one or more decimal digits (surrounding whitespace, underscore separators and
non-ASCII digits accepted by Python are not modelled). -/
def parseIntStr (s : String) : Option Int :=
  match s.toList with
  | [] => none
  | c :: rest =>
    if c == '-' then
      if rest.isEmpty then none else (digitsVal rest 0).map (fun n => -(n : Int))
    else if c == '+' then
      if rest.isEmpty then none else (digitsVal rest 0).map (fun n => (n : Int))
    else (digitsVal (c :: rest) 0).map (fun n => (n : Int))

/-- Models Python `int()` on a decoded JSON value: ints pass through, floats
truncate toward zero, bools map to 0/1, numeric strings are parsed; `None`,
lists and objects raise (`none`). -/
def pyInt : Json → Option Int
  | .num q => some (q.num.tdiv (q.den : Int))
  | .str s => parseIntStr s
  | .bool b => some (if b then 1 else 0)
  | _ => none

/-- Digits after the decimal point: unsigned `digits [. digits]` with at
least one digit overall, as accepted by Python `float()` (exponents,
`inf`/`nan`, whitespace and underscores are not modelled). -/
def parseFloatCore (cs : List Char) : Option Rat :=
  let ip := cs.takeWhile (fun c => c.isDigit)
  let rest := cs.dropWhile (fun c => c.isDigit)
  match rest with
  | [] => if ip.isEmpty then none else (digitsVal ip 0).map (fun n => (n : Rat))
  | '.' :: fp =>
    if fp.all (fun c => c.isDigit) then
      if ip.isEmpty && fp.isEmpty then none
      else some (((digitsVal ip 0).getD 0 : Rat)
                 + ((digitsVal fp 0).getD 0 : Rat) / (10 : Rat) ^ fp.length)
    else none
  | _ => none

/-- Models Python `float()` applied to a string: optional sign then
`parseFloatCore`. -/
def parseFloatStr (s : String) : Option Rat :=
  match s.toList with
  | [] => none
  | c :: rest =>
    if c == '-' then (parseFloatCore rest).map (fun q => -q)
    else if c == '+' then parseFloatCore rest
    else parseFloatCore (c :: rest)

/-- Models Python `float()` on a decoded JSON value. -/
def pyFloat : Json → Option Rat
  | .num q => some q
  | .str s => parseFloatStr s
  | .bool b => some (if b then 1 else 0)
  | _ => none

/-- Models Python `str()` on a decoded JSON value.  Only the string case is
exercised by well-shaped payloads; the renderings of the other cases
approximate Python's `str()` output. -/
def pyStrOf : Json → String
  | .null => "None"
  | .bool b => if b then "True" else "False"
  | .num q => if q.den == 1 then toString q.num else toString q
  | .str s => s
  | .arr _ => "[...]"
  | .obj _ => "{...}"

/-- The pydantic response model of the user endpoint (`GitHubUserResponse`
in `main.py`). -/
structure GitHubUserResponse where
  login : String
  name : Option String
  public_repos : Int
  followers : Int
  following : Int
deriving DecidableEq, Repr

/-- The pydantic response model of the weather endpoint (`WeatherResponse`
in `main.py`). -/
structure WeatherResponse where
  city : String
  temperature : Rat
  weather_description : String
deriving DecidableEq, Repr

/-- An HTTP response received from upstream.  `body = none` models a body
that is not valid JSON, so `r.json()` raises on it. -/
structure HttpResponse where
  status : Nat
  headers : List (String × String)
  body : Option Json

/-- Outcome of one outbound `client.get`: either a response, or an
`httpx.RequestError` carrying the network error text. -/
inductive NetOutcome where
  | ok (resp : HttpResponse)
  | err (msg : String)

/-- Result of running a handler: a value serialized with status 200, an
`HTTPException(status, detail)`, or an exception escaping the handler
(surfaced by the framework as a generic error, not an `HTTPException`). -/
inductive HResult (α : Type) where
  | ok (val : α)
  | httpError (status : Nat) (detail : String)
  | crash
deriving DecidableEq, Repr

/-- The lower-cased `message` probed by the 403 branch of
`get_github_user`: `(r.json().get("message") or "").lower()` inside
`try/except` — any exception (invalid JSON, non-dict body, non-string
message) leaves `msg = ""`. -/
def extractedLowerMessage (body : Option Json) : String :=
  match body with
  | some (.obj fields) =>
    match dictGet fields "message" with
    | some (.str s) => toLowerStr s
    | _ => ""
  | _ => ""

/-- One counter field of the user payload:
`int(data.get(k, 0))` — absent key defaults to `0`, a present value goes
through Python `int()` and may raise. -/
def counterField (fields : List (String × Json)) (k : String) : Option Int :=
  match fields.lookup k with
  | none => some 0
  | some v => pyInt v

/-- Lines 99-105 of `main.py`: building `GitHubUserResponse` from the
decoded body, inside `try/except`.  `none` models any exception there
(non-dict body, non-string `login`, non-string non-null `name`,
uncoercible counter), which the handler maps to a 500. -/
def buildGitHubUser (data : Json) : Option GitHubUserResponse :=
  match data with
  | .obj fields =>
    match dictGet fields "login" with
    | some (.str l) =>
      let name? : Option (Option String) :=
        match dictGet fields "name" with
        | none => some none
        | some (.str s) => some (some s)
        | some _ => none
      match name?, counterField fields "public_repos",
            counterField fields "followers", counterField fields "following" with
      | some n, some pr, some fo, some fg => some ⟨l, n, pr, fo, fg⟩
      | _, _, _, _ => none
    | _ => none
  | _ => none

/-- The `get_github_user` handler of `main.py`, as a function of the
outcome of its single outbound call.  The `{e}` exception text interpolated
into the "Unexpected response shape" detail is modelled by the fixed stem. -/
def get_github_user (net : NetOutcome) (username : String) :
    HResult GitHubUserResponse :=
  match net with
  | .err e => .httpError 502 ("Network error talking to GitHub: " ++ e)
  | .ok r =>
    if r.status == 404 then .httpError 404 "GitHub user not found"
    else if r.status == 403 then
      if headerGet r.headers "X-RateLimit-Remaining" == some "0"
          || strContains (extractedLowerMessage r.body) "rate limit" then
        .httpError 429 "GitHub API rate limit exceeded. Try again later or add a token."
      else
        .httpError 403 "GitHub API returned 403 Forbidden."
    else if isError r.status then
      .httpError r.status ("GitHub API error (" ++ toString r.status ++ ").")
    else
      match r.body with
      | none => .crash
      | some data =>
        match buildGitHubUser data with
        | some u => .ok u
        | none => .httpError 500 "Unexpected response shape from GitHub."

/-- `resolved_name = first.get("name") or city` (line 145): a falsy `name`
(absent, JSON null, `""`, `0`, …) falls back to the input city; a truthy
non-string would later make `WeatherResponse(city=...)` raise (`none`). -/
def resolvedCity (ff : List (String × Json)) (city : String) : Option String :=
  match dictGet ff "name" with
  | some v =>
    if jTruthy v then
      match v with
      | .str s => some s
      | _ => none
    else some city
  | none => some city

/-- `float(payload["main"]["temp"])` (line 163), inside `try/except`. -/
def extractTemp (payload : Json) : Option Rat :=
  match payload with
  | .obj f =>
    match f.lookup "main" with
    | some (.obj mf) =>
      match mf.lookup "temp" with
      | some t => pyFloat t
      | none => none
    | _ => none
  | _ => none

/-- `str(payload["weather"][0]["description"])` (line 164), inside
`try/except`. -/
def extractDescription (payload : Json) : Option String :=
  match payload with
  | .obj f =>
    match f.lookup "weather" with
    | some (.arr (w0 :: _)) =>
      match w0 with
      | .obj wf =>
        match wf.lookup "description" with
        | some v => some (pyStrOf v)
        | none => none
      | _ => none
    | _ => none
  | _ => none

/-- The geocode bodies that pass the line-139 check of `main.py`
(`isinstance(places, list) and len(places) > 0`). -/
def isNonemptyList : Json → Bool
  | .arr (_ :: _) => true
  | _ => false

/-- One outbound call of the weather handler (the geocoding GET or the
current-weather GET). -/
inductive OutCall where
  | geocode
  | currentWeather
deriving DecidableEq, Repr

/-- The environment a single `get_weather` request runs in: the value of
`os.getenv("OPENWEATHER_API_KEY")` and the outcomes of the two outbound
calls (the second is consulted only if the geocode step succeeds). -/
structure WeatherEnv where
  apiKey : Option String
  geo : NetOutcome
  weather : NetOutcome

/-- The `get_weather` handler of `main.py`, returning the handler outcome
together with the ordered list of outbound calls issued.  As in Python,
`if not api_key` treats both an unset and an empty key as missing; the
error messages keep the interpolated network-error text and model the
interpolated exception text of the shape error by a fixed stem. -/
def get_weather (env : WeatherEnv) (city : String) :
    HResult WeatherResponse × List OutCall :=
  match env.apiKey with
  | none =>
    (.httpError 500 "OpenWeather API key not configured. Set OPENWEATHER_API_KEY env var or .env file.", [])
  | some key =>
    if key == "" then
      (.httpError 500 "OpenWeather API key not configured. Set OPENWEATHER_API_KEY env var or .env file.", [])
    else
      match env.geo with
      | .err e =>
        (.httpError 502 ("Network error talking to OpenWeather Geocoding API: " ++ e), [.geocode])
      | .ok geo_resp =>
        if isError geo_resp.status then
          (.httpError geo_resp.status "OpenWeather geocoding API error.", [.geocode])
        else
          match geo_resp.body with
          | none => (.crash, [.geocode])
          | some places =>
            match places with
            | .arr (first :: _) =>
              match first with
              | .obj ff =>
                match dictGet ff "lat", dictGet ff "lon" with
                | some _, some _ =>
                  match env.weather with
                  | .err e =>
                    (.httpError 502 ("Network error talking to OpenWeather Weather API: " ++ e),
                     [.geocode, .currentWeather])
                  | .ok w_resp =>
                    if isError w_resp.status then
                      (.httpError w_resp.status "OpenWeather weather API error.",
                       [.geocode, .currentWeather])
                    else
                      match w_resp.body with
                      | none => (.crash, [.geocode, .currentWeather])
                      | some payload =>
                        match extractTemp payload, extractDescription payload with
                        | some t, some d =>
                          match resolvedCity ff city with
                          | some nm => (.ok ⟨nm, t, d⟩, [.geocode, .currentWeather])
                          | none => (.crash, [.geocode, .currentWeather])
                        | _, _ =>
                          (.httpError 500 "Unexpected response shape from OpenWeather.",
                           [.geocode, .currentWeather])
                | _, _ =>
                  (.httpError 502 "Geocoding returned no coordinates.", [.geocode])
              | _ => (.crash, [.geocode])
            | _ => (.httpError 404 "Invalid city name or city not found.", [.geocode])

/-!
### Supporting lemmas
-/

/-- A non-error status code is not 404. -/
theorem beq404_of_not_error {s : Nat} (hs : isError s = false) : (s == 404) = false := by
  apply beq_eq_false_iff_ne.mpr
  rintro rfl
  exact absurd hs (by decide)

/-- A non-error status code is not 403. -/
theorem beq403_of_not_error {s : Nat} (hs : isError s = false) : (s == 403) = false := by
  apply beq_eq_false_iff_ne.mpr
  rintro rfl
  exact absurd hs (by decide)

/-- The 403 branch of `get_github_user`, in closed form. -/
theorem github_403_result (hdrs : List (String × String)) (body : Option Json) (u : String) :
    get_github_user (.ok ⟨403, hdrs, body⟩) u =
      if headerGet hdrs "X-RateLimit-Remaining" == some "0"
          || strContains (extractedLowerMessage body) "rate limit" then
        .httpError 429 "GitHub API rate limit exceeded. Try again later or add a token."
      else .httpError 403 "GitHub API returned 403 Forbidden." := by
  unfold get_github_user
  simp

/-- The parse branch of `get_github_user`, in closed form. -/
theorem github_parse_result (s : Nat) (hs : isError s = false)
    (hdrs : List (String × String)) (j : Json) (uname : String) :
    get_github_user (.ok ⟨s, hdrs, some j⟩) uname =
      match buildGitHubUser j with
      | some u => .ok u
      | none => .httpError 500 "Unexpected response shape from GitHub." := by
  unfold get_github_user
  simp [beq404_of_not_error hs, beq403_of_not_error hs, hs]

/-- The second step of `get_weather` once the geocode step succeeded, in
closed form. -/
theorem weather_step2_result (key : String) (hk : (key == "") = false)
    (gs : Nat) (hgs : isError gs = false) (gh : List (String × String))
    (ff : List (String × Json)) (rest : List Json)
    (latJ lonJ : Json) (hlat : dictGet ff "lat" = some latJ)
    (hlon : dictGet ff "lon" = some lonJ)
    (ws : Nat) (hws : isError ws = false) (wh : List (String × String))
    (payload : Json) (city : String) :
    get_weather ⟨some key, .ok ⟨gs, gh, some (.arr (.obj ff :: rest))⟩,
        .ok ⟨ws, wh, some payload⟩⟩ city =
      (match extractTemp payload, extractDescription payload with
       | some t, some d =>
         match resolvedCity ff city with
         | some nm => (.ok ⟨nm, t, d⟩, [.geocode, .currentWeather])
         | none => (.crash, [.geocode, .currentWeather])
       | _, _ =>
         (.httpError 500 "Unexpected response shape from OpenWeather.",
          [.geocode, .currentWeather])) := by
  unfold get_weather
  simp [hk, hgs, hws, hlat, hlon]

/-!
### Claim theorems
-/

/-- C1: for every upstream 403 response to the user-lookup handler, the
result is the 429 rate-limit failure exactly when the
`X-RateLimit-Remaining` header equals `"0"` or the lower-cased `message`
field of the JSON body contains the substring "rate limit"; every other
403 response yields the generic 403 failure. -/
theorem github_403_rate_limit_classification
    (hdrs : List (String × String)) (body : Option Json) (u : String) :
    (get_github_user (.ok ⟨403, hdrs, body⟩) u
        = .httpError 429 "GitHub API rate limit exceeded. Try again later or add a token."
      ↔ (headerGet hdrs "X-RateLimit-Remaining" = some "0"
          ∨ strContains (extractedLowerMessage body) "rate limit" = true))
    ∧ (get_github_user (.ok ⟨403, hdrs, body⟩) u
        = .httpError 403 "GitHub API returned 403 Forbidden."
      ↔ ¬ (headerGet hdrs "X-RateLimit-Remaining" = some "0"
          ∨ strContains (extractedLowerMessage body) "rate limit" = true)) := by
  rw [github_403_result]
  cases hcond : (headerGet hdrs "X-RateLimit-Remaining" == some "0"
      || strContains (extractedLowerMessage body) "rate limit") with
  | true =>
    simp only [Bool.or_eq_true, beq_iff_eq] at hcond
    simp [hcond]
  | false =>
    simp only [Bool.or_eq_false_iff, beq_eq_false_iff_ne] at hcond
    simp [hcond.1, hcond.2]

/-- C3: every upstream 404 on the user-profile call yields exactly the 404
"user not found" failure, whose detail contains the spec's message. -/
theorem github_404_user_not_found
    (hdrs : List (String × String)) (body : Option Json) (u : String) :
    get_github_user (.ok ⟨404, hdrs, body⟩) u
      = .httpError 404 "GitHub user not found"
    ∧ strContains (toLowerStr "GitHub user not found") "user not found" = true := by
  constructor
  · unfold get_github_user
    simp
  · decide

/-- C5: with no API key configured, the weather handler fails with the 500
configuration message and issues no outbound call, whatever the two
would-be upstream outcomes and the city are. -/
theorem weather_missing_key_no_outbound (g w : NetOutcome) (city : String) :
    get_weather ⟨none, g, w⟩ city
      = (.httpError 500 "OpenWeather API key not configured. Set OPENWEATHER_API_KEY env var or .env file.",
         []) := rfl

/-- C2 counterexample: an upstream 200 whose body is not valid JSON makes
`r.json()` (line 97 of `main.py`, outside the `try`) raise out of the
handler instead of producing the 500 "unexpected response shape" failure. -/
theorem github_unparseable_body_escapes :
    get_github_user (.ok ⟨200, [], none⟩) "octocat" = .crash
    ∧ get_github_user (.ok ⟨200, [], none⟩) "octocat"
        ≠ .httpError 500 "Unexpected response shape from GitHub." := by
  constructor
  · decide
  · decide

/-- C2 (amended): a success-status body that is valid JSON but cannot be
coerced to the expected shape yields exactly the 500 "unexpected response
shape" failure — in the user handler for the profile body and in the
weather handler for the current-conditions body. -/
theorem shape_failure_yields_500 :
    (∀ (s : Nat) (hdrs : List (String × String)) (j : Json) (uname : String),
        isError s = false → buildGitHubUser j = none →
        get_github_user (.ok ⟨s, hdrs, some j⟩) uname
          = .httpError 500 "Unexpected response shape from GitHub.")
    ∧ (∀ (key : String) (gs ws : Nat) (gh wh : List (String × String))
        (ff : List (String × Json)) (rest : List Json) (city : String) (payload : Json),
        key ≠ "" → isError gs = false → isError ws = false →
        (∃ latJ, dictGet ff "lat" = some latJ) →
        (∃ lonJ, dictGet ff "lon" = some lonJ) →
        (extractTemp payload = none ∨ extractDescription payload = none) →
        get_weather ⟨some key, .ok ⟨gs, gh, some (.arr (.obj ff :: rest))⟩,
            .ok ⟨ws, wh, some payload⟩⟩ city
          = (.httpError 500 "Unexpected response shape from OpenWeather.",
             [.geocode, .currentWeather]))
    ∧ strContains (toLowerStr "Unexpected response shape from GitHub.")
        "unexpected response shape" = true
    ∧ strContains (toLowerStr "Unexpected response shape from OpenWeather.")
        "unexpected response shape" = true := by
  refine ⟨?_, ?_, by decide, by decide⟩
  · intro s hdrs j uname hs hb
    rw [github_parse_result s hs, hb]
  · intro key gs ws gh wh ff rest city payload hk hgs hws ⟨latJ, hlat⟩ ⟨lonJ, hlon⟩ hbad
    rw [weather_step2_result key (beq_eq_false_iff_ne.mpr hk) gs hgs gh ff rest
      latJ lonJ hlat hlon ws hws wh payload city]
    rcases hbad with h | h
    · rw [h]
    · rw [h]
      cases extractTemp payload <;> rfl

/-- C2 amended witness: a 200 profile body that is a JSON list, and a 200
current-conditions body missing `main`, both yield the 500 shape failure. -/
theorem shape_failure_yields_500_witness :
    get_github_user (.ok ⟨200, [], some (.arr [])⟩) "octocat"
      = .httpError 500 "Unexpected response shape from GitHub."
    ∧ get_weather ⟨some "k",
        .ok ⟨200, [], some (.arr [.obj [("lat", .num 51), ("lon", .num 0)]])⟩,
        .ok ⟨200, [], some (.obj [])⟩⟩ "London"
      = (.httpError 500 "Unexpected response shape from OpenWeather.",
         [.geocode, .currentWeather]) := by
  constructor
  · exact shape_failure_yields_500.1 200 [] (.arr []) "octocat" (by decide) (by decide)
  · exact shape_failure_yields_500.2.1 "k" 200 200 [] [] [("lat", .num 51), ("lon", .num 0)]
      [] "London" (.obj []) (by decide) (by decide) (by decide)
      ⟨.num 51, rfl⟩ ⟨.num 0, rfl⟩ (Or.inl rfl)

/-- Accumulator form of `digitsVal` on all-digit input, expressed with
`Nat.ofDigits`. -/
theorem digitsVal_digits (cs : List Char) (h : ∀ c ∈ cs, c.isDigit = true) :
    ∀ acc : Nat, digitsVal cs acc
      = some (acc * 10 ^ cs.length + Nat.ofDigits 10 ((cs.map digitVal).reverse)) := by
  induction cs with
  | nil => intro acc; simp [digitsVal, Nat.ofDigits]
  | cons c cs ih =>
    intro acc
    have hc : c.isDigit = true := h c (by simp)
    have ih' := ih (fun x hx => h x (by simp [hx])) (10 * acc + digitVal c)
    simp only [digitsVal, hc, if_true, ih']
    rw [List.map_cons, List.reverse_cons, Nat.ofDigits_append]
    simp [Nat.ofDigits]
    ring

/-- C4: a success-status response whose profile body builds a
`GitHubUserResponse` is returned as-is; a counter absent from the payload
defaults to 0, and a counter given as a decimal-digit string is coerced to
its base-10 integer value. -/
theorem github_success_profile
    (s : Nat) (hs : isError s = false)
    (hdrs : List (String × String)) (j : Json) (u : GitHubUserResponse) (uname : String)
    (hb : buildGitHubUser j = some u) :
    get_github_user (.ok ⟨s, hdrs, some j⟩) uname = .ok u
    ∧ (∀ (fields : List (String × Json)) (k : String),
        fields.lookup k = none → counterField fields k = some 0)
    ∧ (∀ cs : List Char, cs ≠ [] → (∀ c ∈ cs, c.isDigit = true) →
        pyInt (.str (String.mk cs))
          = some ((Nat.ofDigits 10 ((cs.map digitVal).reverse) : Nat) : Int)) := by
  refine ⟨?_, ?_, ?_⟩
  · rw [github_parse_result s hs, hb]
  · intro fields k hk
    simp [counterField, hk]
  · intro cs hne hdig
    cases cs with
    | nil => exact absurd rfl hne
    | cons c cs' =>
      have hc : c.isDigit = true := hdig c (by simp)
      have hcm : (c == '-') = false := by
        apply beq_eq_false_iff_ne.mpr; rintro rfl; exact absurd hc (by decide)
      have hcp : (c == '+') = false := by
        apply beq_eq_false_iff_ne.mpr; rintro rfl; exact absurd hc (by decide)
      show parseIntStr (String.mk (c :: cs')) = _
      simp only [parseIntStr, String.toList, hcm, hcp, if_false, Bool.false_eq_true]
      rw [digitsVal_digits (c :: cs') hdig 0]
      simp

/-- C4 witness: a 200 profile with `public_repos` given as the string
`"12"`, `followers` as the number 3, `name` and `following` absent. -/
theorem github_success_profile_witness :
    get_github_user (.ok ⟨200, [],
        some (.obj [("login", .str "octocat"), ("public_repos", .str "12"),
                    ("followers", .num 3)])⟩) "octocat"
      = .ok ⟨"octocat", none, 12, 3, 0⟩ := by
  exact (github_success_profile 200 (by decide) []
    (.obj [("login", .str "octocat"), ("public_repos", .str "12"), ("followers", .num 3)])
    ⟨"octocat", none, 12, 3, 0⟩ "octocat" (by decide)).1

/-- C6: a success-status geocoding response whose JSON body is not a list,
or is the empty list, yields the 404 "invalid city name or city not found"
failure for every input city. -/
theorem weather_geocode_empty_404
    (key : String) (hk : key ≠ "") (gs : Nat) (hgs : isError gs = false)
    (gh : List (String × String)) (j : Json) (hshape : isNonemptyList j = false)
    (w : NetOutcome) (city : String) :
    get_weather ⟨some key, .ok ⟨gs, gh, some j⟩, w⟩ city
      = (.httpError 404 "Invalid city name or city not found.", [.geocode])
    ∧ strContains (toLowerStr "Invalid city name or city not found.")
        "invalid city name or city not found" = true := by
  have hk' : (key == "") = false := beq_eq_false_iff_ne.mpr hk
  constructor
  · unfold get_weather
    cases j with
    | arr es =>
      cases es with
      | nil => simp [hk', hgs]
      | cons e es' => simp [isNonemptyList] at hshape
    | null => simp [hk', hgs]
    | bool b => simp [hk', hgs]
    | num q => simp [hk', hgs]
    | str s => simp [hk', hgs]
    | obj fs => simp [hk', hgs]
  · decide

/-- C6 witness: an empty geocode list for city "LoNdOn". -/
theorem weather_geocode_empty_404_witness :
    get_weather ⟨some "k", .ok ⟨200, [], some (.arr [])⟩, .err "unused"⟩ "LoNdOn"
      = (.httpError 404 "Invalid city name or city not found.", [.geocode])
    ∧ strContains (toLowerStr "Invalid city name or city not found.")
        "invalid city name or city not found" = true :=
  weather_geocode_empty_404 "k" (by decide) 200 (by decide) [] (.arr []) (by decide)
    (.err "unused") "LoNdOn"

/-- C7: a first geocode element lacking `lat` or lacking `lon` yields the
502 "geocoding returned no coordinates" failure, and the current-weather
call is never issued. -/
theorem weather_missing_coordinates_502
    (key : String) (hk : key ≠ "") (gs : Nat) (hgs : isError gs = false)
    (gh : List (String × String)) (ff : List (String × Json)) (rest : List Json)
    (hmiss : ff.lookup "lat" = none ∨ ff.lookup "lon" = none)
    (w : NetOutcome) (city : String) :
    get_weather ⟨some key, .ok ⟨gs, gh, some (.arr (.obj ff :: rest))⟩, w⟩ city
      = (.httpError 502 "Geocoding returned no coordinates.", [.geocode])
    ∧ strContains (toLowerStr "Geocoding returned no coordinates.")
        "geocoding returned no coordinates" = true := by
  refine ⟨?_, by decide⟩
  have hk' : (key == "") = false := beq_eq_false_iff_ne.mpr hk
  unfold get_weather
  rcases hmiss with h | h
  · have hlat : dictGet ff "lat" = none := by simp [dictGet, h]
    simp [hk', hgs, hlat]
  · have hlon : dictGet ff "lon" = none := by simp [dictGet, h]
    cases hl : dictGet ff "lat" with
    | none => simp [hk', hgs, hl]
    | some v => simp [hk', hgs, hl, hlon]

/-- C7 witness: a geocode hit carrying only a name, no coordinates. -/
theorem weather_missing_coordinates_502_witness :
    get_weather ⟨some "k",
        .ok ⟨200, [], some (.arr [.obj [("name", .str "London")]])⟩, .err "unused"⟩ "London"
      = (.httpError 502 "Geocoding returned no coordinates.", [.geocode]) :=
  (weather_missing_coordinates_502 "k" (by decide) 200 (by decide) []
    [("name", .str "London")] [] (Or.inl rfl) (.err "unused") "London").1

/-- A string other than `""` has `isEmpty = false`. -/
theorem isEmpty_false_of_ne {s : String} (h : s ≠ "") : s.isEmpty = false := by
  cases he : s.isEmpty
  · rfl
  · exact absurd ((String.isEmpty_iff s).mp he) h

/-- C8: when both weather calls succeed with well-shaped bodies, the
returned `WeatherResponse` carries the resolved geocode name as `city`
(the provider's non-empty `name` when present, the caller's input when
omitted), `main.temp` as `temperature` and `weather[0].description` as
`weather_description`. -/
theorem weather_full_success
    (key : String) (hk : key ≠ "")
    (gs ws : Nat) (hgs : isError gs = false) (hws : isError ws = false)
    (gh wh : List (String × String))
    (ff : List (String × Json)) (rest : List Json)
    (latJ lonJ : Json) (hlat : dictGet ff "lat" = some latJ)
    (hlon : dictGet ff "lon" = some lonJ)
    (payload : Json) (t : Rat) (ht : extractTemp payload = some t)
    (d : String) (hd : extractDescription payload = some d)
    (city nm : String) (hr : resolvedCity ff city = some nm) :
    get_weather ⟨some key, .ok ⟨gs, gh, some (.arr (.obj ff :: rest))⟩,
        .ok ⟨ws, wh, some payload⟩⟩ city
      = (.ok ⟨nm, t, d⟩, [.geocode, .currentWeather])
    ∧ (∀ (ff' : List (String × Json)) (city' : String),
        dictGet ff' "name" = none → resolvedCity ff' city' = some city')
    ∧ (∀ (ff' : List (String × Json)) (city' s : String),
        dictGet ff' "name" = some (.str s) → s ≠ "" →
        resolvedCity ff' city' = some s) := by
  refine ⟨?_, ?_, ?_⟩
  · rw [weather_step2_result key (beq_eq_false_iff_ne.mpr hk) gs hgs gh ff rest
      latJ lonJ hlat hlon ws hws wh payload city, ht, hd, hr]
  · intro ff' city' hn
    simp [resolvedCity, hn]
  · intro ff' city' s hn hs
    simp [resolvedCity, hn, jTruthy, isEmpty_false_of_ne hs]

/-- C8 witness: a full success for city "london" resolved to "London",
temperature 20, description "mist". -/
theorem weather_full_success_witness :
    get_weather ⟨some "k",
        .ok ⟨200, [], some (.arr [.obj [("name", .str "London"), ("lat", .num 51),
                                        ("lon", .num 0)]])⟩,
        .ok ⟨200, [], some (.obj [("main", .obj [("temp", .num 20)]),
                                  ("weather", .arr [.obj [("description", .str "mist")]])])⟩⟩
      "london"
      = (.ok ⟨"London", 20, "mist"⟩, [.geocode, .currentWeather]) :=
  (weather_full_success "k" (by decide) 200 200 (by decide) (by decide) [] []
    [("name", .str "London"), ("lat", .num 51), ("lon", .num 0)] []
    (.num 51) (.num 0) rfl rfl
    (.obj [("main", .obj [("temp", .num 20)]),
           ("weather", .arr [.obj [("description", .str "mist")]])])
    20 rfl "mist" rfl "london" "London" rfl).1

/-- C9: a network-layer failure at the user-profile, geocode or
current-weather call yields a 502 whose detail embeds the underlying
error text, and never a success object. -/
theorem network_failures_yield_502 :
    (∀ (e u : String),
        get_github_user (.err e) u
          = .httpError 502 ("Network error talking to GitHub: " ++ e)
        ∧ ∀ val, get_github_user (.err e) u ≠ .ok val)
    ∧ (∀ (key e : String) (w : NetOutcome) (city : String), key ≠ "" →
        get_weather ⟨some key, .err e, w⟩ city
          = (.httpError 502 ("Network error talking to OpenWeather Geocoding API: " ++ e),
             [.geocode])
        ∧ ∀ val calls, get_weather ⟨some key, .err e, w⟩ city ≠ (.ok val, calls))
    ∧ (∀ (key : String) (gs : Nat) (gh : List (String × String))
        (ff : List (String × Json)) (rest : List Json) (latJ lonJ : Json)
        (e city : String), key ≠ "" → isError gs = false →
        dictGet ff "lat" = some latJ → dictGet ff "lon" = some lonJ →
        get_weather ⟨some key, .ok ⟨gs, gh, some (.arr (.obj ff :: rest))⟩, .err e⟩ city
          = (.httpError 502 ("Network error talking to OpenWeather Weather API: " ++ e),
             [.geocode, .currentWeather])
        ∧ ∀ val calls,
            get_weather ⟨some key, .ok ⟨gs, gh, some (.arr (.obj ff :: rest))⟩, .err e⟩ city
              ≠ (.ok val, calls)) := by
  refine ⟨?_, ?_, ?_⟩
  · intro e u
    refine ⟨rfl, ?_⟩
    intro val h
    exact HResult.noConfusion h
  · intro key e w city hk
    have hk' : (key == "") = false := beq_eq_false_iff_ne.mpr hk
    have heq : get_weather ⟨some key, .err e, w⟩ city
        = (.httpError 502 ("Network error talking to OpenWeather Geocoding API: " ++ e),
           [.geocode]) := by
      unfold get_weather
      simp [hk']
    refine ⟨heq, ?_⟩
    intro val calls h
    rw [heq] at h
    exact HResult.noConfusion (congrArg Prod.fst h)
  · intro key gs gh ff rest latJ lonJ e city hk hgs hlat hlon
    have hk' : (key == "") = false := beq_eq_false_iff_ne.mpr hk
    have heq : get_weather ⟨some key, .ok ⟨gs, gh, some (.arr (.obj ff :: rest))⟩, .err e⟩ city
        = (.httpError 502 ("Network error talking to OpenWeather Weather API: " ++ e),
           [.geocode, .currentWeather]) := by
      unfold get_weather
      simp [hk', hgs, hlat, hlon]
    refine ⟨heq, ?_⟩
    intro val calls h
    rw [heq] at h
    exact HResult.noConfusion (congrArg Prod.fst h)

/-- C9 witness: connection failures at each of the three outbound calls. -/
theorem network_failures_yield_502_witness :
    get_github_user (.err "conn refused") "octocat"
      = .httpError 502 ("Network error talking to GitHub: " ++ "conn refused")
    ∧ get_weather ⟨some "k", .err "conn refused", .err "unused"⟩ "London"
      = (.httpError 502 ("Network error talking to OpenWeather Geocoding API: "
          ++ "conn refused"), [.geocode])
    ∧ get_weather ⟨some "k",
        .ok ⟨200, [], some (.arr [.obj [("lat", .num 51), ("lon", .num 0)]])⟩,
        .err "timeout"⟩ "London"
      = (.httpError 502 ("Network error talking to OpenWeather Weather API: "
          ++ "timeout"), [.geocode, .currentWeather]) :=
  ⟨(network_failures_yield_502.1 "conn refused" "octocat").1,
   (network_failures_yield_502.2.1 "k" "conn refused" (.err "unused") "London"
      (by decide)).1,
   (network_failures_yield_502.2.2 "k" 200 [] [("lat", .num 51), ("lon", .num 0)] []
      (.num 51) (.num 0) "timeout" "London" (by decide) (by decide) rfl rfl).1⟩

/-- C10: a first geocode element whose `name` is the empty string or JSON
null makes the returned city fall back to the caller's original input. -/
theorem weather_falsy_name_city_fallback
    (key : String) (hk : key ≠ "")
    (gs ws : Nat) (hgs : isError gs = false) (hws : isError ws = false)
    (gh wh : List (String × String))
    (ff : List (String × Json)) (rest : List Json)
    (latJ lonJ : Json) (hlat : dictGet ff "lat" = some latJ)
    (hlon : dictGet ff "lon" = some lonJ)
    (payload : Json) (t : Rat) (ht : extractTemp payload = some t)
    (d : String) (hd : extractDescription payload = some d)
    (city : String)
    (hname : ff.lookup "name" = some (.str "") ∨ ff.lookup "name" = some .null) :
    (get_weather ⟨some key, .ok ⟨gs, gh, some (.arr (.obj ff :: rest))⟩,
        .ok ⟨ws, wh, some payload⟩⟩ city).1 = .ok ⟨city, t, d⟩ := by
  have hr : resolvedCity ff city = some city := by
    rcases hname with h | h
    · simp [resolvedCity, dictGet, h, jTruthy,
        show ("" : String).isEmpty = true from rfl]
    · simp [resolvedCity, dictGet, h]
  rw [weather_step2_result key (beq_eq_false_iff_ne.mpr hk) gs hgs gh ff rest
    latJ lonJ hlat hlon ws hws wh payload city, ht, hd, hr]

/-- C10 witness: `name: ""` in the geocode hit, input city "MyTown". -/
theorem weather_falsy_name_city_fallback_witness :
    (get_weather ⟨some "k",
        .ok ⟨200, [], some (.arr [.obj [("name", .str ""), ("lat", .num 51),
                                        ("lon", .num 0)]])⟩,
        .ok ⟨200, [], some (.obj [("main", .obj [("temp", .num 20)]),
                                  ("weather", .arr [.obj [("description", .str "mist")]])])⟩⟩
      "MyTown").1 = .ok ⟨"MyTown", 20, "mist"⟩ :=
  weather_falsy_name_city_fallback "k" (by decide) 200 200 (by decide) (by decide) [] []
    [("name", .str ""), ("lat", .num 51), ("lon", .num 0)] []
    (.num 51) (.num 0) rfl rfl
    (.obj [("main", .obj [("temp", .num 20)]),
           ("weather", .arr [.obj [("description", .str "mist")]])])
    20 rfl "mist" rfl "MyTown" (Or.inl rfl)
